import Mathlib

/-!
Shallow embedding of the `wayland-server` crate's event-dispatch and
object-lifecycle engine (`src/wayland-server/src/lib.rs`), together with
theorems settling the specification claims about it.

The file has two layers:

* the handle-level layer, translated directly from the `Resource` trait and
  the `EventResult` / `Liveness` types of `lib.rs`: a handle carries the
  underlying object identity, the owning client identity, and a liveness
  status; `Resource.clone` and `Resource.same_client_as` are the trait's
  default method bodies; `EventResult.expect` is the inherent method on
  `EventResult`, with the panic on `Destroyed` modelled as `Except.error`
  carrying the panic message;

* the engine-state layer, modelled from the spec where the deciding code
  lives outside `lib.rs` (the `event_loop` module, the generated protocol
  code and the C library): an `EngineState` maps each object identity to an
  optional liveness (`none` meaning no such object has been created), plus
  the per-object user-data slot and implementation table and the per-client
  disconnection mark. Engine operations (`destroy`, `post_error`,
  `register`, `set_user_data`, `bind_global`) are explicit state-passing
  functions, and `EngineOp` / `applyOps` give sequences of them for the
  temporal claim about liveness transitions.

Object identities are allocated monotonically from `nextId` and never
reused, so a `Nat` identity denotes one object instance for the whole run;
the well-formedness predicate `EngineState.wf` records that identities at
or above `nextId` have not been created yet.
-/

namespace WaylandServer

/-- `Liveness` from lib.rs: tri-state liveness of a wayland object. -/
inductive Liveness where
  /-- This object is alive and events can be sent to it. -/
  | Alive
  /-- This object is dead, sending it events will do nothing. -/
  | Dead
  /-- This object is not managed by wayland-server. -/
  | Unmanaged
deriving DecidableEq, Repr

/-- `EventResult<T>` from lib.rs: outcome of calling an event on a resource. -/
inductive EventResult (T : Type) where
  /-- Message has been buffered and will be sent to client. -/
  | Sent : T → EventResult T
  /-- This resource is already destroyed, request has been ignored. -/
  | Destroyed : EventResult T
deriving DecidableEq, Repr

/-- `EventResult::expect` from lib.rs. The Rust method returns `T` and
panics with the provided message on `Destroyed`; the panic is modelled as
`Except.error` carrying exactly that message. -/
def EventResult.expect {T : Type} (self : EventResult T) (error : String) :
    Except String T :=
  match self with
  | .Sent v => .ok v
  | .Destroyed => .error error

/-- A handle implementing the `Resource` trait of lib.rs. The trait's
accessor methods become fields: `status()` is the `status` field,
`wl_resource_get_client(self.ptr())` is the `client` field, and the
underlying wayland object the handle refers to is the `obj` field. -/
structure Resource where
  /-- Identity of the underlying wayland object. -/
  obj : Nat
  /-- Identity of the owning client (`wl_resource_get_client`). -/
  client : Nat
  /-- Result of `status()` on this handle. -/
  status : Liveness
deriving DecidableEq, Repr

/-- `Resource::clone_unchecked` from lib.rs: a required trait method with no
body in lib.rs; per its documentation it always yields a second handle to
the same underlying object, so in this embedding it returns the same handle
value. -/
def Resource.clone_unchecked (self : Resource) : Resource := self

/-- `Resource::clone` default method body from lib.rs:
`if self.status() == Liveness::Alive { Some(unsafe { self.clone_unchecked() }) } else { None }`. -/
def Resource.clone (self : Resource) : Option Resource :=
  if self.status = Liveness.Alive then some self.clone_unchecked else none

/-- `Resource::same_client_as` default method body from lib.rs: false unless
both handles are `Alive`, otherwise equality of the two client pointers. -/
def Resource.same_client_as (self other : Resource) : Bool :=
  if ¬(self.status = Liveness.Alive ∧ other.status = Liveness.Alive) then
    false
  else
    self.client = other.client

/-- Modelled from the spec: the outward event-send operations live in the
generated protocol code (`wayland_api.rs`), which is not part of lib.rs.
Per the spec, every send returns `Sent` with the message buffered when the
handle's liveness was `Alive`, and `Destroyed` as a safe no-op when it was
`Dead`; sends to `Unmanaged` handles are attempted (the engine cannot vouch
for them). -/
def Resource.send_event {T : Type} (self : Resource) (msg : T) : EventResult T :=
  if self.status = Liveness.Dead then EventResult.Destroyed else EventResult.Sent msg

/-- Modelled from the spec: `RegisterStatus`, reexported by lib.rs from the
`event_loop` module whose source is not available. Per the spec, `register`
returns a non-success status exactly when the resource is dead, so the
outcome is success versus rejected-because-dead. -/
inductive RegisterStatus where
  /-- The implementation table was installed. -/
  | Registered
  /-- The resource was dead, nothing was installed. -/
  | DeadResource
deriving DecidableEq, Repr

/-- Modelled from the spec: an implementation table, one callback per opcode
plus one implementation-data value. Callbacks and data are identified
abstractly by natural numbers. -/
structure ImplTable where
  /-- Callback identity for each opcode. -/
  callback : Nat → Nat
  /-- The implementation-data value registered with the table. -/
  data : Nat

/-- Modelled from the spec: a global advertisement, an interface at an
advertised maximum version plus a bind callback. -/
structure Global where
  /-- The advertised (maximum) version of the global. -/
  version : Nat
  /-- Identity of the bind callback. -/
  callback : Nat

/-- A handle at the engine-state layer: the underlying object identity it
refers to, inside the namespace of its owning client. -/
structure Handle where
  /-- Identity of the underlying wayland object. -/
  obj : Nat
  /-- Identity of the owning client. -/
  client : Nat
deriving DecidableEq, Repr

/-- Modelled from the spec: the engine's state over the parts of the
`event_loop` module, the generated protocol code and the C library that are
not available as source. Each created object identity carries a liveness, a
user-data slot and an optionally registered implementation table; `none`
liveness means no object with that identity has been created; each client
carries a marked-for-disconnection flag; fresh identities are drawn from
`nextId` and never reused. -/
structure EngineState where
  /-- Liveness of each object identity, `none` when not yet created. -/
  liveness : Nat → Option Liveness
  /-- User-data slot of each object identity (shared by all its handles). -/
  userData : Nat → Nat
  /-- Implementation table registered on each object identity, if any. -/
  table : Nat → Option ImplTable
  /-- Whether each client has been marked for disconnection. -/
  markedForDisconnect : Nat → Bool
  /-- Next fresh object identity. -/
  nextId : Nat

/-- Identities at or above `nextId` have not been created yet. -/
def EngineState.wf (s : EngineState) : Prop :=
  ∀ o : Nat, s.nextId ≤ o → s.liveness o = none

/-- Status of a handle as seen through the engine state. -/
def EngineState.handleStatus (s : EngineState) (h : Handle) : Option Liveness :=
  s.liveness h.obj

/-- Modelled from the spec: object destruction (explicit client request or
connection teardown, performed outside lib.rs). It flips an `Alive` object
to `Dead`; dead objects stay dead and unmanaged objects are not the
engine's to destroy. -/
def EngineState.destroy (s : EngineState) (o : Nat) : EngineState :=
  { s with
    liveness := fun o' =>
      if o' = o ∧ s.liveness o' = some Liveness.Alive then some Liveness.Dead
      else s.liveness o' }

/-- Modelled from the spec: the effect of `Resource::post_error`, whose body
in lib.rs only forwards to `wl_resource_post_error` in the C library. Per
the spec it queues the protocol error and marks the owning client for
disconnection; it does not itself flip any liveness. -/
def EngineState.post_error (s : EngineState) (h : Handle) (_code : Nat)
    (_msg : String) : EngineState :=
  { s with
    markedForDisconnect := fun c =>
      if c = h.client then true else s.markedForDisconnect c }

/-- Modelled from the spec: `register` of the `event_loop` module. It fails
with a non-success status when the resource is dead and otherwise installs
the implementation table unconditionally, overwriting any prior table. -/
def EngineState.register (s : EngineState) (h : Handle) (t : ImplTable) :
    RegisterStatus × EngineState :=
  if s.liveness h.obj = some Liveness.Dead then
    (RegisterStatus.DeadResource, s)
  else
    (RegisterStatus.Registered,
     { s with table := fun o => if o = h.obj then some t else s.table o })

/-- Modelled from the spec: `set_user_data`, implemented in the generated
protocol code. All handles to the same object share one slot, so the write
is keyed by the underlying object identity. -/
def EngineState.set_user_data (s : EngineState) (h : Handle) (p : Nat) :
    EngineState :=
  { s with userData := fun o => if o = h.obj then p else s.userData o }

/-- Modelled from the spec: `get_user_data`, implemented in the generated
protocol code; reads the slot of the underlying object. -/
def EngineState.get_user_data (s : EngineState) (h : Handle) : Nat :=
  s.userData h.obj

/-- Modelled from the spec: outcome of a client bind request on a global. -/
inductive BindResult where
  /-- The requested version was too high: protocol error, fatal to the
  client, no handle created. -/
  | ProtocolError
  /-- A fresh live handle was created and the global's callback was invoked
  with it. -/
  | Bound (h : Handle) (cb : Nat)
deriving DecidableEq, Repr

/-- Modelled from the spec: the bind half of the global registry
(`event_loop` module, source not available). The client-requested version
is validated against the advertised version: a violation is a protocol
error fatal to the client and creates nothing; otherwise a fresh handle
with liveness `Alive` is created for a fresh object identity in the
client's namespace and the global's callback is invoked with it. -/
def EngineState.bind_global (s : EngineState) (g : Global) (client : Nat)
    (v : Nat) : BindResult × EngineState :=
  if g.version < v then
    (BindResult.ProtocolError,
     { s with
       markedForDisconnect := fun c =>
         if c = client then true else s.markedForDisconnect c })
  else
    (BindResult.Bound { obj := s.nextId, client := client } g.callback,
     { s with
       liveness := fun o =>
         if o = s.nextId then some Liveness.Alive else s.liveness o,
       nextId := s.nextId + 1 })

/-- Modelled from the spec: dispatch's lookup step — the callback identity
and implementation data that a dispatch of `opcode` on `h` would invoke,
`none` when no table is registered. -/
def EngineState.dispatch_lookup (s : EngineState) (h : Handle) (opcode : Nat) :
    Option (Nat × Nat) :=
  (s.table h.obj).map fun t => (t.callback opcode, t.data)

/-- One engine operation, for sequencing. -/
inductive EngineOp where
  /-- Destruction of object `o`. -/
  | destroy (o : Nat)
  /-- `post_error` on a handle. -/
  | postError (h : Handle) (code : Nat) (msg : String)
  /-- `register` of an implementation table on a handle. -/
  | register (h : Handle) (t : ImplTable)
  /-- `set_user_data` through a handle. -/
  | setUserData (h : Handle) (p : Nat)
  /-- A client bind request on a global at a requested version. -/
  | bindGlobal (g : Global) (client : Nat) (v : Nat)

/-- Apply one engine operation to the state. -/
def EngineState.applyOp (s : EngineState) : EngineOp → EngineState
  | EngineOp.destroy o => s.destroy o
  | EngineOp.postError h code msg => s.post_error h code msg
  | EngineOp.register h t => (s.register h t).2
  | EngineOp.setUserData h p => s.set_user_data h p
  | EngineOp.bindGlobal g client v => (s.bind_global g client v).2

/-- Apply a sequence of engine operations to the state, left to right. -/
def EngineState.applyOps (s : EngineState) : List EngineOp → EngineState
  | [] => s
  | op :: ops => (s.applyOp op).applyOps ops

/-- A sample engine state for concrete evaluations: object 0 is alive,
object 1 is dead, object 2 is unmanaged, nothing else has been created. -/
def sampleState : EngineState :=
  { liveness := fun o =>
      if o = 0 then some Liveness.Alive
      else if o = 1 then some Liveness.Dead
      else if o = 2 then some Liveness.Unmanaged
      else none,
    userData := fun _ => 0,
    table := fun _ => none,
    markedForDisconnect := fun _ => false,
    nextId := 3 }

/-- A sample implementation table. -/
def sampleTable : ImplTable := { callback := fun op => op + 100, data := 5 }

/-- A second sample implementation table, distinct from `sampleTable`. -/
def sampleTable2 : ImplTable := { callback := fun op => op + 200, data := 6 }

/-- A sample global advertised at version 3. -/
def sampleGlobal : Global := { version := 3, callback := 42 }

/-- The sample state is well-formed. -/
theorem sampleState_wf : sampleState.wf := by
  intro o ho
  simp only [sampleState] at ho ⊢
  have h0 : o ≠ 0 := by omega
  have h1 : o ≠ 1 := by omega
  have h2 : o ≠ 2 := by omega
  simp [h0, h1, h2]

/-- C1: `clone()` returns a handle (the one `clone_unchecked` yields) exactly
when the handle's status is `Alive`, and returns `none` exactly when the
status is `Dead` or `Unmanaged` — so a handle to an `Unmanaged` object is
only obtainable through the explicit unsafe `clone_unchecked`. -/
theorem C1_clone_safe (r : Resource) :
    (r.clone = some r.clone_unchecked ↔ r.status = Liveness.Alive) ∧
    (r.clone = none ↔ (r.status = Liveness.Dead ∨ r.status = Liveness.Unmanaged)) := by
  cases r with
  | mk obj client status =>
    cases status <;> simp [Resource.clone, Resource.clone_unchecked]

/-- C2: `same_client_as` returns `true` exactly when both handles are `Alive`
and their client identities are equal; in particular it returns `false`
whenever either side is not `Alive`. -/
theorem C2_same_client (a b : Resource) :
    (a.same_client_as b = true ↔
      (a.status = Liveness.Alive ∧ b.status = Liveness.Alive ∧ a.client = b.client)) ∧
    ((¬ a.status = Liveness.Alive ∨ ¬ b.status = Liveness.Alive) →
      a.same_client_as b = false) := by
  constructor
  · simp only [Resource.same_client_as]
    by_cases ha : a.status = Liveness.Alive <;>
      by_cases hb : b.status = Liveness.Alive <;>
      simp [ha, hb, decide_eq_true_eq]
  · intro hne
    simp only [Resource.same_client_as]
    rcases hne with h | h <;> simp [h]

/-- C2 witness: a dead handle compared with an alive one yields `false`. -/
theorem C2_same_client_witness :
    Resource.same_client_as
      { obj := 0, client := 1, status := Liveness.Dead }
      { obj := 2, client := 1, status := Liveness.Alive } = false :=
  (C2_same_client _ _).2 (Or.inl (by decide))

/-- C3: an outward event send returns `Sent msg` when the handle's liveness
was `Alive`, returns `Destroyed` when it was `Dead`, and in every case
returns one of these two `EventResult` values — never a fatal error. -/
theorem C3_event_send (T : Type) (r : Resource) (msg : T) :
    (r.status = Liveness.Alive → r.send_event msg = EventResult.Sent msg) ∧
    (r.status = Liveness.Dead → r.send_event msg = EventResult.Destroyed) ∧
    (r.send_event msg = EventResult.Sent msg ∨
      r.send_event msg = EventResult.Destroyed) := by
  cases hr : r.status <;> simp [Resource.send_event, hr]

/-- C3 witness: sending to an alive handle buffers the message, sending to a
dead handle is the `Destroyed` no-op. -/
theorem C3_event_send_witness :
    Resource.send_event { obj := 0, client := 0, status := Liveness.Alive } 7
        = EventResult.Sent 7 ∧
    Resource.send_event { obj := 0, client := 0, status := Liveness.Dead } 7
        = EventResult.Destroyed :=
  ⟨(C3_event_send Nat _ 7).1 rfl, (C3_event_send Nat _ 7).2.1 rfl⟩

/-- C10: `expect s` on `Sent v` yields `v`, on `Destroyed` it aborts with
exactly the message `s` (the panic is modelled as `Except.error s`), and
these are the only two behaviours. -/
theorem C10_expect (T : Type) (v : T) (s : String) :
    (EventResult.Sent v).expect s = Except.ok v ∧
    (EventResult.Destroyed : EventResult T).expect s = Except.error s ∧
    (∀ e : EventResult T,
      e.expect s = Except.error s ∨
        ∃ w, e = EventResult.Sent w ∧ e.expect s = Except.ok w) := by
  refine ⟨rfl, rfl, ?_⟩
  intro e
  cases e with
  | Sent w => exact Or.inr ⟨w, rfl, rfl⟩
  | Destroyed => exact Or.inl rfl

/-- C4: `post_error` marks the client owning the handle for disconnection
and leaves the liveness of every handle (in particular the one it was
called on) unchanged. -/
theorem C4_post_error_frame (s : EngineState) (h : Handle) (code : Nat)
    (msg : String) :
    (s.post_error h code msg).markedForDisconnect h.client = true ∧
    (∀ h' : Handle,
      (s.post_error h code msg).handleStatus h' = s.handleStatus h') := by
  constructor
  · simp [EngineState.post_error]
  · intro h'
    rfl

/-- C6: `register` returns a non-success status and changes nothing when the
resource is dead, and in every other case succeeds and installs the table
on the resource's object unconditionally, whatever table was there before. -/
theorem C6_register_status (s : EngineState) (h : Handle) (t : ImplTable) :
    (s.liveness h.obj = some Liveness.Dead →
      (s.register h t).1 ≠ RegisterStatus.Registered ∧ (s.register h t).2 = s) ∧
    (s.liveness h.obj ≠ some Liveness.Dead →
      (s.register h t).1 = RegisterStatus.Registered ∧
        (s.register h t).2.table h.obj = some t) := by
  constructor
  · intro hd
    simp [EngineState.register, hd]
  · intro hd
    simp [EngineState.register, hd]

/-- C6 witness: registering on the dead object 1 is rejected and leaves the
state unchanged. -/
theorem C6_register_status_witness :
    sampleState.liveness 1 = some Liveness.Dead ∧
    ((sampleState.register ⟨1, 0⟩ sampleTable).1 ≠ RegisterStatus.Registered ∧
      (sampleState.register ⟨1, 0⟩ sampleTable).2 = sampleState) :=
  ⟨rfl, (C6_register_status sampleState ⟨1, 0⟩ sampleTable).1 rfl⟩

/-- C7: after registering `t1` and then `t2` on the same (non-dead) handle,
a dispatch of any opcode resolves to `t2`'s callback and `t2`'s data — the
second registration fully and atomically replaces the first. -/
theorem C7_reregister (s : EngineState) (h : Handle) (t1 t2 : ImplTable)
    (op : Nat) (hnd : s.liveness h.obj ≠ some Liveness.Dead) :
    ((s.register h t1).2.register h t2).2.dispatch_lookup h op
      = some (t2.callback op, t2.data) := by
  simp [EngineState.register, hnd, EngineState.dispatch_lookup]

/-- C7 witness: on the alive object 0, re-registration makes dispatch see
only the second table. -/
theorem C7_reregister_witness :
    sampleState.liveness 0 ≠ some Liveness.Dead ∧
    ((sampleState.register ⟨0, 0⟩ sampleTable).2.register ⟨0, 0⟩
        sampleTable2).2.dispatch_lookup ⟨0, 0⟩ 4
      = some (sampleTable2.callback 4, sampleTable2.data) :=
  ⟨by decide,
   C7_reregister sampleState ⟨0, 0⟩ sampleTable sampleTable2 4 (by decide)⟩

/-- C8: for two handles referring to the same live underlying object, a
`set_user_data` through one is observable via `get_user_data` through the
other — the slot is shared. -/
theorem C8_user_data_shared (s : EngineState) (h1 h2 : Handle) (p : Nat)
    (hobj : h1.obj = h2.obj)
    (_halive : s.liveness h1.obj = some Liveness.Alive) :
    (s.set_user_data h1 p).get_user_data h2 = p := by
  simp [EngineState.set_user_data, EngineState.get_user_data, hobj]

/-- C8 witness: two handles to the alive object 0 share the slot. -/
theorem C8_user_data_shared_witness :
    sampleState.liveness 0 = some Liveness.Alive ∧
    (sampleState.set_user_data ⟨0, 0⟩ 9).get_user_data ⟨0, 5⟩ = 9 :=
  ⟨rfl, C8_user_data_shared sampleState ⟨0, 0⟩ ⟨0, 5⟩ 9 rfl rfl⟩

/-- C9: a bind request at a version above the global's advertised version is
a protocol error — the client is marked for teardown and no object is
created; otherwise a fresh handle with liveness `Alive` is created in the
client's namespace and the global's callback is invoked with it. -/
theorem C9_bind_global (s : EngineState) (g : Global) (client v : Nat) :
    (g.version < v →
      (s.bind_global g client v).1 = BindResult.ProtocolError ∧
      (s.bind_global g client v).2.markedForDisconnect client = true ∧
      (s.bind_global g client v).2.liveness = s.liveness ∧
      (s.bind_global g client v).2.nextId = s.nextId) ∧
    (v ≤ g.version →
      ∃ h : Handle,
        (s.bind_global g client v).1 = BindResult.Bound h g.callback ∧
        h.client = client ∧
        (s.bind_global g client v).2.liveness h.obj = some Liveness.Alive) := by
  constructor
  · intro hv
    simp [EngineState.bind_global, hv]
  · intro hv
    refine ⟨⟨s.nextId, client⟩, ?_, rfl, ?_⟩ <;>
      simp [EngineState.bind_global, Nat.not_lt.mpr hv]

/-- `register` never changes any liveness. -/
theorem register_preserves_liveness (s : EngineState) (h : Handle)
    (t : ImplTable) : (s.register h t).2.liveness = s.liveness := by
  unfold EngineState.register
  split <;> rfl

/-- `register` never changes the fresh-identity counter. -/
theorem register_preserves_nextId (s : EngineState) (h : Handle)
    (t : ImplTable) : (s.register h t).2.nextId = s.nextId := by
  unfold EngineState.register
  split <;> rfl

/-- One engine operation changes an object's liveness in at most one of two
ways: destroying an alive object, or creating a not-yet-created object as
alive. -/
theorem applyOp_liveness_cases (s : EngineState) (op : EngineOp) (o : Nat)
    (hwf : s.wf) :
    (s.applyOp op).liveness o = s.liveness o ∨
      (s.liveness o = some Liveness.Alive ∧
        (s.applyOp op).liveness o = some Liveness.Dead) ∨
      (s.liveness o = none ∧
        (s.applyOp op).liveness o = some Liveness.Alive) := by
  cases op with
  | destroy o' =>
    by_cases h : o = o' ∧ s.liveness o = some Liveness.Alive
    · refine Or.inr (Or.inl ⟨h.2, ?_⟩)
      show (if o = o' ∧ s.liveness o = some Liveness.Alive then some Liveness.Dead
            else s.liveness o) = some Liveness.Dead
      rw [if_pos h]
    · refine Or.inl ?_
      show (if o = o' ∧ s.liveness o = some Liveness.Alive then some Liveness.Dead
            else s.liveness o) = s.liveness o
      rw [if_neg h]
  | postError h code msg => exact Or.inl rfl
  | register h t =>
    exact Or.inl (congrFun (register_preserves_liveness s h t) o)
  | setUserData h p => exact Or.inl rfl
  | bindGlobal g client v =>
    by_cases hv : g.version < v
    · refine Or.inl ?_
      show (s.bind_global g client v).2.liveness o = s.liveness o
      unfold EngineState.bind_global
      rw [if_pos hv]
    · by_cases ho : o = s.nextId
      · refine Or.inr (Or.inr ⟨by rw [ho]; exact hwf s.nextId le_rfl, ?_⟩)
        show (s.bind_global g client v).2.liveness o = some Liveness.Alive
        unfold EngineState.bind_global
        rw [if_neg hv]
        show (if o = s.nextId then some Liveness.Alive else s.liveness o)
          = some Liveness.Alive
        rw [if_pos ho]
      · refine Or.inl ?_
        show (s.bind_global g client v).2.liveness o = s.liveness o
        unfold EngineState.bind_global
        rw [if_neg hv]
        show (if o = s.nextId then some Liveness.Alive else s.liveness o)
          = s.liveness o
        rw [if_neg ho]

/-- Every engine operation preserves well-formedness of the state. -/
theorem applyOp_wf (s : EngineState) (op : EngineOp) (hwf : s.wf) :
    (s.applyOp op).wf := by
  cases op with
  | destroy o' =>
    intro o ho
    have hnone : s.liveness o = none := hwf o ho
    show (if o = o' ∧ s.liveness o = some Liveness.Alive then some Liveness.Dead
          else s.liveness o) = none
    rw [if_neg]
    · exact hnone
    · rintro ⟨-, hA⟩
      rw [hnone] at hA
      exact Option.noConfusion hA
  | postError h code msg => exact fun o ho => hwf o ho
  | register h t =>
    intro o ho
    rw [show (s.applyOp (EngineOp.register h t)) = (s.register h t).2 from rfl,
        register_preserves_liveness]
    rw [show (s.applyOp (EngineOp.register h t)) = (s.register h t).2 from rfl,
        register_preserves_nextId] at ho
    exact hwf o ho
  | setUserData h p => exact fun o ho => hwf o ho
  | bindGlobal g client v =>
    intro o ho
    show (s.bind_global g client v).2.liveness o = none
    have ho' : (s.bind_global g client v).2.nextId ≤ o := ho
    unfold EngineState.bind_global at ho' ⊢
    by_cases hv : g.version < v
    · rw [if_pos hv] at ho' ⊢
      exact hwf o ho'
    · rw [if_neg hv] at ho' ⊢
      have hge : s.nextId + 1 ≤ o := ho'
      have hne : o ≠ s.nextId := by omega
      show (if o = s.nextId then some Liveness.Alive else s.liveness o) = none
      rw [if_neg hne]
      exact hwf o (by omega)

/-- The liveness evolutions a run of the engine can produce on one object:
unchanged, alive-to-dead, created alive, or created and then destroyed. -/
def LivenessEvolves (l l' : Option Liveness) : Prop :=
  l' = l ∨
    (l = some Liveness.Alive ∧ l' = some Liveness.Dead) ∨
    (l = none ∧ l' = some Liveness.Alive) ∨
    (l = none ∧ l' = some Liveness.Dead)

/-- `LivenessEvolves` is transitive. -/
theorem livenessEvolves_trans {a b c : Option Liveness}
    (h1 : LivenessEvolves a b) (h2 : LivenessEvolves b c) :
    LivenessEvolves a c := by
  unfold LivenessEvolves at h1 h2 ⊢
  rcases h1 with rfl | ⟨ha, rfl⟩ | ⟨ha, rfl⟩ | ⟨ha, rfl⟩ <;>
    rcases h2 with rfl | ⟨hb, rfl⟩ | ⟨hb, rfl⟩ | ⟨hb, rfl⟩ <;>
    simp_all

/-- A run of engine operations from a well-formed state only evolves each
object's liveness along `LivenessEvolves`, and preserves well-formedness. -/
theorem applyOps_liveness (s : EngineState) (ops : List EngineOp) (o : Nat)
    (hwf : s.wf) :
    LivenessEvolves (s.liveness o) ((s.applyOps ops).liveness o) ∧
      (s.applyOps ops).wf := by
  induction ops generalizing s with
  | nil => exact ⟨Or.inl rfl, hwf⟩
  | cons op ops ih =>
    have hstep := applyOp_liveness_cases s op o hwf
    have hwf' := applyOp_wf s op hwf
    have hrest := ih (s.applyOp op) hwf'
    refine ⟨?_, hrest.2⟩
    have h1 : LivenessEvolves (s.liveness o) ((s.applyOp op).liveness o) := by
      unfold LivenessEvolves
      rcases hstep with h | h | h
      · exact Or.inl h
      · exact Or.inr (Or.inl ⟨h.1, h.2⟩)
      · exact Or.inr (Or.inr (Or.inl ⟨h.1, h.2⟩))
    exact livenessEvolves_trans h1 hrest.1

/-- C5: over any sequence of engine operations from a well-formed state, a
dead object stays dead, an unmanaged object stays unmanaged, and the only
change of liveness an existing object can undergo is from `Alive` to
`Dead`. -/
theorem C5_liveness_one_way (s : EngineState) (ops : List EngineOp) (o : Nat)
    (hwf : s.wf) :
    (s.liveness o = some Liveness.Dead →
      (s.applyOps ops).liveness o = some Liveness.Dead) ∧
    (s.liveness o = some Liveness.Unmanaged →
      (s.applyOps ops).liveness o = some Liveness.Unmanaged) ∧
    (∀ l l', s.liveness o = some l → (s.applyOps ops).liveness o = some l' →
      l ≠ l' → l = Liveness.Alive ∧ l' = Liveness.Dead) := by
  have hev := (applyOps_liveness s ops o hwf).1
  unfold LivenessEvolves at hev
  refine ⟨?_, ?_, ?_⟩
  · intro hd
    rcases hev with h | h | h | h
    · rw [h, hd]
    · rw [hd] at h
      exact absurd h.1 (by simp)
    · rw [hd] at h
      exact absurd h.1 (by simp)
    · rw [hd] at h
      exact absurd h.1 (by simp)
  · intro hu
    rcases hev with h | h | h | h
    · rw [h, hu]
    · rw [hu] at h
      exact absurd h.1 (by simp)
    · rw [hu] at h
      exact absurd h.1 (by simp)
    · rw [hu] at h
      exact absurd h.1 (by simp)
  · intro l l' hl hl' hne
    rcases hev with h | h | h | h
    · rw [hl'] at h
      rw [hl] at h
      exact absurd (Option.some.inj h).symm hne
    · rw [hl] at h
      rw [hl'] at h
      exact ⟨Option.some.inj h.1, Option.some.inj h.2⟩
    · rw [hl] at h
      exact absurd h.1 (by simp)
    · rw [hl] at h
      exact absurd h.1 (by simp)

/-- C5 witness: in the sample state the dead object 1 is still dead after
further destruction operations. -/
theorem C5_liveness_one_way_witness :
    sampleState.liveness 1 = some Liveness.Dead ∧
    (sampleState.applyOps
        [EngineOp.destroy 0, EngineOp.destroy 1]).liveness 1
      = some Liveness.Dead :=
  ⟨rfl,
   (C5_liveness_one_way sampleState [EngineOp.destroy 0, EngineOp.destroy 1] 1
      sampleState_wf).1 rfl⟩

/-- C9 witness: binding the version-3 global at requested version 5 is a
protocol error that marks client 8 and creates nothing. -/
theorem C9_bind_global_witness :
    sampleGlobal.version < 5 ∧
    ((sampleState.bind_global sampleGlobal 8 5).1 = BindResult.ProtocolError ∧
      (sampleState.bind_global sampleGlobal 8 5).2.markedForDisconnect 8 = true ∧
      (sampleState.bind_global sampleGlobal 8 5).2.liveness = sampleState.liveness ∧
      (sampleState.bind_global sampleGlobal 8 5).2.nextId = sampleState.nextId) :=
  ⟨by decide, (C9_bind_global sampleState sampleGlobal 8 5).1 (by decide)⟩

end WaylandServer
